import Mathlib

/-
Verification of the sprite animation clip playback state machine
(src/framework/components/sprite/sprite-animation-clip.js).

JavaScript numbers are embedded as exact rationals extended with the
special values +Infinity, -Infinity and NaN.  All arithmetic appearing in
the clip code is exact on the inputs considered (integers, halves, and the
constant Number.MIN_VALUE = 2^(-1074), modelled as the exact rational),
so no rounding is modelled; the special values are produced exactly where
the JavaScript operations produce them (division by zero, modulo by zero,
zero times infinity, comparisons involving NaN are false).
-/

/-- A JavaScript number: an exact rational, +Infinity, -Infinity or NaN. -/
inductive JsNum where
  | num : ℚ → JsNum
  | pinf : JsNum
  | ninf : JsNum
  | nan : JsNum
deriving DecidableEq, Repr

open JsNum

/-- Truncation of a rational toward zero, as performed by the JavaScript
remainder operator. -/
def ratTrunc (q : ℚ) : ℤ :=
  if 0 ≤ q then ⌊q⌋ else -⌊-q⌋

/-- JavaScript addition. -/
def jsAdd : JsNum → JsNum → JsNum
  | num a, num b => num (a + b)
  | nan, _ => nan
  | _, nan => nan
  | pinf, ninf => nan
  | ninf, pinf => nan
  | pinf, _ => pinf
  | _, pinf => pinf
  | ninf, _ => ninf
  | _, ninf => ninf

/-- JavaScript multiplication. -/
def jsMul : JsNum → JsNum → JsNum
  | num a, num b => num (a * b)
  | nan, _ => nan
  | _, nan => nan
  | pinf, pinf => pinf
  | pinf, ninf => ninf
  | ninf, pinf => ninf
  | ninf, ninf => pinf
  | pinf, num b => if b = 0 then nan else if 0 < b then pinf else ninf
  | ninf, num b => if b = 0 then nan else if 0 < b then ninf else pinf
  | num a, pinf => if a = 0 then nan else if 0 < a then pinf else ninf
  | num a, ninf => if a = 0 then nan else if 0 < a then ninf else pinf

/-- JavaScript division (division by zero gives an infinity or NaN). -/
def jsDiv : JsNum → JsNum → JsNum
  | num a, num b =>
      if b = 0 then (if a = 0 then nan else if 0 < a then pinf else ninf)
      else num (a / b)
  | nan, _ => nan
  | _, nan => nan
  | pinf, num b => if 0 ≤ b then pinf else ninf
  | ninf, num b => if 0 ≤ b then ninf else pinf
  | num _, pinf => num 0
  | num _, ninf => num 0
  | pinf, pinf => nan
  | pinf, ninf => nan
  | ninf, pinf => nan
  | ninf, ninf => nan

/-- JavaScript remainder operator (fmod semantics, NaN on a zero divisor). -/
def jsMod : JsNum → JsNum → JsNum
  | num a, num b => if b = 0 then nan else num (a - b * (ratTrunc (a / b) : ℚ))
  | nan, _ => nan
  | _, nan => nan
  | pinf, _ => nan
  | ninf, _ => nan
  | num a, pinf => num a
  | num a, ninf => num a

/-- Math.floor. -/
def jsFloor : JsNum → JsNum
  | num a => num (⌊a⌋ : ℚ)
  | pinf => pinf
  | ninf => ninf
  | nan => nan

/-- JavaScript strict less-than (false whenever NaN is involved). -/
def jsLt : JsNum → JsNum → Bool
  | num a, num b => decide (a < b)
  | nan, _ => false
  | _, nan => false
  | ninf, num _ => true
  | ninf, pinf => true
  | num _, pinf => true
  | _, _ => false

/-- JavaScript less-or-equal (false whenever NaN is involved). -/
def jsLe : JsNum → JsNum → Bool
  | num a, num b => decide (a ≤ b)
  | nan, _ => false
  | _, nan => false
  | ninf, _ => true
  | _, pinf => true
  | pinf, num _ => false
  | num _, ninf => false
  | pinf, ninf => false

/-- JavaScript strict equality === on numbers (NaN === NaN is false). -/
def jsSEq : JsNum → JsNum → Bool
  | num a, num b => decide (a = b)
  | pinf, pinf => true
  | ninf, ninf => true
  | _, _ => false

/-- JavaScript falsiness of a number: 0 and NaN are falsy. -/
def jsFalsy : JsNum → Bool
  | num a => decide (a = 0)
  | nan => true
  | pinf => false
  | ninf => false

/-- Number.MIN_VALUE, the smallest positive double, as an exact rational. -/
def minValue : ℚ := 1 / 2 ^ 1074

/-- Modelled from the spec: pc.math.clamp (the engine math utility is not
under src/).  Section 3 of the spec describes the frame value as clamped to
the interval from 0 to frameCount; the standard engine clamp returns max
when value is at least max, min when value is at most min, and the value
itself otherwise (hence NaN is returned unchanged, every comparison with
NaN being false). -/
def jsClamp (v lo hi : JsNum) : JsNum :=
  if jsLe hi v then hi else if jsLe v lo then lo else v

/-- A sprite resource as consumed by the clip: only the list of frame
descriptors is read (and of it only the length). -/
structure Sprite where
  frames : List Unit
deriving DecidableEq, Repr

/-- The playback state of a SpriteAnimationClip: the underscore fields
sprite, fps, loop, playing, paused, time and frame of the source. -/
structure Clip where
  sprite : Option Sprite
  fps : JsNum
  loop : Bool
  playing : Bool
  paused : Bool
  time : JsNum
  frame : JsNum
deriving DecidableEq, Repr

/-- Events fired on the clip (each is also re-fired on the owning
component; the single list models the clip-level firings). -/
inductive Ev where
  | play
  | pause
  | resume
  | stop
  | loopEv
  | endEv
deriving DecidableEq, Repr

/-- Result of one clip operation: the new clip state, the events fired,
and the arguments of the calls made to the renderer callback showFrame. -/
structure StepOut where
  clip : Clip
  events : List Ev
  shows : List JsNum
deriving DecidableEq, Repr

/-- The duration getter: frames.length divided by fps, with
Number.MIN_VALUE substituted for a falsy fps; 0 when no sprite is bound. -/
def durationGet (c : Clip) : JsNum :=
  match c.sprite with
  | some s => jsDiv (num (s.frames.length : ℚ)) (if jsFalsy c.fps then num minValue else c.fps)
  | none => num 0

/-- The frame property setter.  With a sprite bound the stored frame is
clamped to the interval from 0 to frames.length and the time is reset to
the clamped start of that frame; with no sprite the raw value is stored
and time is reset to 0.  When this clip is the current clip of its
component, showFrame is invoked with the raw assigned value. -/
def setFrame (isCurrent : Bool) (c : Clip) (value : JsNum) : StepOut :=
  let c1 :=
    match c.sprite with
    | some s =>
      let fr := jsClamp value (num 0) (num (s.frames.length : ℚ))
      let fpsEff := if jsFalsy c.fps then num minValue else c.fps
      let t := jsClamp (jsDiv fr fpsEff) (num 0) (durationGet c)
      { c with frame := fr, time := t }
    | none => { c with frame := value, time := num 0 }
  ⟨c1, [], if isCurrent then [value] else []⟩

/-- The time property setter: stores the value, clamps negative values to
0, wraps (looping) or clamps (non-looping) values above the duration, and
re-derives the frame through the frame setter. -/
def setTime (isCurrent : Bool) (c : Clip) (value : JsNum) : StepOut :=
  let c1 := { c with time := value }
  let dur := durationGet c1
  let c2 :=
    if jsLt c1.time (num 0) then { c1 with time := num 0 }
    else if jsLt dur c1.time then
      (if c1.loop then { c1 with time := jsMod c1.time dur } else { c1 with time := dur })
    else c1
  match c2.sprite with
  | some s => setFrame isCurrent c2 (jsFloor (jsDiv (jsMul (num (s.frames.length : ℚ)) c2.time) dur))
  | none => setFrame isCurrent c2 (num 0)

/-- The play method: a no-op while the playing flag is set (even when
paused); otherwise sets playing, clears paused, resets the frame to 0 and
fires the play event. -/
def play (isCurrent : Bool) (c : Clip) : StepOut :=
  if c.playing then ⟨c, [], []⟩
  else
    let r := setFrame isCurrent { c with playing := true, paused := false } (num 0)
    ⟨r.clip, [Ev.play], r.shows⟩

/-- The pause method. -/
def pause (c : Clip) : StepOut :=
  if !c.playing || c.paused then ⟨c, [], []⟩
  else ⟨{ c with paused := true }, [Ev.pause], []⟩

/-- The resume method. -/
def resume (c : Clip) : StepOut :=
  if !c.paused then ⟨c, [], []⟩
  else ⟨{ c with paused := false }, [Ev.resume], []⟩

/-- The stop method. -/
def stop (isCurrent : Bool) (c : Clip) : StepOut :=
  if !c.playing then ⟨c, [], []⟩
  else
    let r := setFrame isCurrent { c with playing := false, paused := false, time := num 0 } (num 0)
    ⟨r.clip, [Ev.stop], r.shows⟩

/-- The private update method (advance): early-exits when fps is strictly
equal to 0 or the clip is not playing or is paused; otherwise advances
time by dt times the component speed, wraps or clamps past the duration,
recomputes the frame, stores it through the frame setter when it differs
(strict inequality, so NaN always differs), and fires loopEv or endEv. -/
def update (speed : JsNum) (isCurrent : Bool) (c : Clip) (dt : JsNum) : StepOut :=
  if c.fps = num 0 then ⟨c, [], []⟩
  else if !c.playing || c.paused then ⟨c, [], []⟩
  else
    let c1 := { c with time := jsAdd c.time (jsMul dt speed) }
    let dur := durationGet c1
    let endB := jsLt dur c1.time
    let c2 :=
      if endB then
        (if c1.loop then { c1 with time := jsMod c1.time dur } else { c1 with time := dur })
      else c1
    let newFrame :=
      match c2.sprite with
      | some s => jsFloor (jsDiv (jsMul (num (s.frames.length : ℚ)) c2.time) dur)
      | none => num 0
    let r := if jsSEq newFrame c2.frame then (⟨c2, [], []⟩ : StepOut) else setFrame isCurrent c2 newFrame
    if endB then
      (if c2.loop then ⟨r.clip, r.events ++ [Ev.loopEv], r.shows⟩
       else ⟨{ r.clip with playing := false, paused := false }, r.events ++ [Ev.endEv], r.shows⟩)
    else r

/-
Asset binding protocol (the spriteAsset setter and its handler chain).
Asset ids are the positive integers of the engine, so the truthiness test
on a stored id is modelled by the option being some.  The sprite setter
has rendering side effects (mesh listeners, material parameters, a
time/frame refresh) that do not change which resource is stored; only the
stored resource is modelled here.
-/

/-- A resolved sprite resource: an identity and whether its texture atlas
reference is resolved. -/
structure SpriteRes where
  rid : ℕ
  hasAtlas : Bool
deriving DecidableEq, Repr

/-- An entry of the asset registry: the loaded resource (none while the
load is pending) and the id of the texture atlas asset in its data. -/
structure AssetRec where
  resource : Option SpriteRes
  atlasAssetId : ℕ
deriving DecidableEq, Repr

/-- The state relevant to binding: the asset registry, the clip fields
spriteAsset and sprite, and the listener sets held by the clip (load,
change and remove handlers are attached and detached together on the same
asset, so one id set models the three; the registry add handlers; the
pending once subscription on an atlas load; the issued load requests). -/
structure BindState where
  assets : ℕ → Option AssetRec
  spriteAsset : Option ℕ
  sprite : Option SpriteRes
  loadHandlers : List ℕ
  addHandlers : List ℕ
  atlasOnce : Option ℕ
  pendingLoads : List ℕ

/-- The sprite property setter, restricted to the stored resource. -/
def setSpriteRes (w : BindState) (v : Option SpriteRes) : BindState :=
  { w with sprite := v }

/-- The handler onSpriteAssetLoad: clears the sprite when the asset has no
resource; defers to the atlas load (replacing any prior once subscription)
when the atlas is unresolved; assigns the resource otherwise. -/
def onSpriteAssetLoad (w : BindState) (a : AssetRec) : BindState :=
  match a.resource with
  | none => setSpriteRes w none
  | some r =>
    if !r.hasAtlas then { w with atlasOnce := some a.atlasAssetId }
    else setSpriteRes w (some r)

/-- The helper bindSpriteAsset: attaches the load, change and remove
handlers, then either resolves immediately or requests a load. -/
def bindSpriteAsset (w : BindState) (i : ℕ) (a : AssetRec) : BindState :=
  let w1 := { w with loadHandlers := i :: w.loadHandlers }
  match a.resource with
  | some _ => onSpriteAssetLoad w1 a
  | none => { w1 with pendingLoads := i :: w1.pendingLoads }

/-- The one-shot handler onSpriteAssetAdded: detaches itself, then binds
only when the arriving id still equals the stored spriteAsset id. -/
def onSpriteAssetAdded (w : BindState) (i : ℕ) (a : AssetRec) : BindState :=
  let w1 := { w with addHandlers := w.addHandlers.erase i }
  if w1.spriteAsset = some i then bindSpriteAsset w1 i a else w1

/-- The spriteAsset property setter: a no-op on an unchanged id; otherwise
detaches the load, change and remove handlers from the previous asset when
it is registered, stores the new id, and binds it (attaching a registry
add handler when it is not registered yet, in which case the sprite is
also cleared). -/
def setSpriteAsset (w : BindState) (v : Option ℕ) : BindState :=
  if w.spriteAsset = v then w
  else
    let w1 :=
      match w.spriteAsset with
      | some oldId =>
        match w.assets oldId with
        | some _ => { w with loadHandlers := w.loadHandlers.erase oldId }
        | none => w
      | none => w
    let w2 := { w1 with spriteAsset := v }
    match v with
    | some i =>
      match w2.assets i with
      | none => { (setSpriteRes w2 none) with addHandlers := i :: w2.addHandlers }
      | some a => bindSpriteAsset w2 i a
    | none => setSpriteRes w2 none

/-- Completion of the load of asset i: its resource becomes r in the
registry and the load event fires on it, running the clip handler exactly
when the clip has its handlers attached on i.  Unregistered ids cannot
complete a load. -/
def deliverLoad (w : BindState) (i : ℕ) (r : SpriteRes) : BindState :=
  match w.assets i with
  | none => w
  | some a =>
    let a1 : AssetRec := { a with resource := some r }
    let w1 := { w with assets := fun j => if j = i then some a1 else w.assets j }
    if i ∈ w1.loadHandlers then onSpriteAssetLoad w1 a1 else w1

/-- Registration of asset i: the registry gains the record and the add
event for i fires, running the one-shot clip handler exactly when it is
attached. -/
def deliverAdd (w : BindState) (i : ℕ) (a : AssetRec) : BindState :=
  let w1 := { w with assets := fun j => if j = i then some a else w.assets j }
  if i ∈ w1.addHandlers then onSpriteAssetAdded w1 i a else w1

/-- Division of exact rationals, divisor nonzero. -/
theorem jsDiv_num (a b : ℚ) (hb : b ≠ 0) : jsDiv (num a) (num b) = num (a / b) := by
  simp [jsDiv, hb]

/-- Number.MIN_VALUE is positive. -/
theorem minValue_pos : 0 < minValue := by
  norm_num [minValue]

/-- Clamping 0 between 0 and a nonnegative bound gives 0. -/
theorem jsClamp_zero (n : ℚ) (hn : 0 ≤ n) : jsClamp (num 0) (num 0) (num n) = num 0 := by
  unfold jsClamp jsLe
  by_cases h : n ≤ 0
  · simp [h, le_antisymm h hn]
  · simp [h]

/-- C1: on a clip whose duration is 0 because no sprite is bound (fps = 2,
looping, playing, not paused, component speed 1), advance(1) does not
early-exit: it moves time to 1, evaluates 1 modulo 0 = NaN, stores the
non-finite time and fires the loop event, contradicting the stated policy
that advance leaves time and frame unchanged for every duration-0 clip. -/
theorem c1_sprite_less_advance_nan :
    (update (num 1) false (Clip.mk none (num 2) true true false (num 0) (num 0)) (num 1)).clip.time
      = nan ∧
    (update (num 1) false (Clip.mk none (num 2) true true false (num 0) (num 0)) (num 1)).events
      = [Ev.loopEv] := by
  constructor <;>
    norm_num [update, durationGet, setFrame, jsAdd, jsMul, jsDiv, jsMod, jsLt, jsLe, jsSEq,
      jsFalsy, jsClamp, jsFloor, ratTrunc]

/-- C2 counterexample: a clip with a one-frame sprite bound and fps = 0
has duration 1 / Number.MIN_VALUE = 2 ^ 1074, not 0 as the claim states. -/
theorem c2_duration_fps_zero_counterexample :
    durationGet (Clip.mk (some ⟨[()]⟩) (num 0) false false false (num 0) (num 0))
      = num (2 ^ 1074) ∧
    durationGet (Clip.mk (some ⟨[()]⟩) (num 0) false false false (num 0) (num 0))
      ≠ num 0 := by
  constructor <;> norm_num [durationGet, jsFalsy, jsDiv, minValue]

/-- C2 amended: with a sprite bound the duration getter returns
frames.length divided by fps when fps is nonzero, and frames.length
divided by Number.MIN_VALUE when fps is 0 (a huge value, nonzero as soon
as the sprite has frames); it returns 0 exactly when no sprite is bound. -/
theorem c2_duration_amended (s : Sprite) (q : ℚ) (l pl pa : Bool) (t f : JsNum) :
    durationGet (Clip.mk (some s) (num q) l pl pa t f)
      = num ((s.frames.length : ℚ) / (if q = 0 then minValue else q)) ∧
    durationGet (Clip.mk none (num q) l pl pa t f) = num 0 := by
  refine ⟨?_, by simp [durationGet]⟩
  by_cases hq : q = 0
  · norm_num [durationGet, jsFalsy, hq, jsDiv, minValue]
  · norm_num [durationGet, jsFalsy, hq, jsDiv]

/-- C3 counterexample: play() on a playing, paused clip is a complete
no-op: the paused flag stays set, the frame is not reset and no play
event fires, contrary to the claim that play transitions to Playing from
any state, clearing paused and emitting play. -/
theorem c3_play_paused_noop_counterexample :
    play false (Clip.mk (some ⟨[(), (), (), ()]⟩) (num 2) false true true (num (1/2)) (num 1))
      = ⟨Clip.mk (some ⟨[(), (), (), ()]⟩) (num 2) false true true (num (1/2)) (num 1), [], []⟩ := by
  norm_num [play]

/-- C3 amended: play() is a no-op (no event, no frame reset, paused kept)
whenever the playing flag is set, even when the clip is paused; only from
a non-playing state does it set playing, clear paused, reset the frame to
0 and emit the play event. -/
theorem c3_play_amended (c : Clip) (ic : Bool) :
    (c.playing = true → play ic c = ⟨c, [], []⟩) ∧
    (c.playing = false →
      (play ic c).clip.playing = true ∧ (play ic c).clip.paused = false ∧
      (play ic c).clip.frame = num 0 ∧ (play ic c).events = [Ev.play]) := by
  constructor
  · intro h
    simp [play, h]
  · intro h
    refine ⟨?_, ?_, ?_, ?_⟩ <;>
      cases hs : c.sprite with
      | none => simp [play, h, setFrame, hs]
      | some s =>
        simp [play, h, setFrame, hs,
          jsClamp_zero (s.frames.length : ℚ) (by positivity)]

/-- C3 witness: both cases of the amended play behaviour instantiated, on
an already-playing clip (identity) and on a stopped clip (start). -/
theorem c3_play_amended_witness :
    play false (Clip.mk none (num 2) false true false (num 0) (num 0))
      = ⟨Clip.mk none (num 2) false true false (num 0) (num 0), [], []⟩ ∧
    (play false (Clip.mk none (num 2) false false false (num 0) (num 3))).clip.playing = true ∧
    (play false (Clip.mk none (num 2) false false false (num 0) (num 3))).events = [Ev.play] := by
  refine ⟨(c3_play_amended (Clip.mk none (num 2) false true false (num 0) (num 0)) false).1 rfl,
    ((c3_play_amended (Clip.mk none (num 2) false false false (num 0) (num 3)) false).2 rfl).1,
    ((c3_play_amended (Clip.mk none (num 2) false false false (num 0) (num 3)) false).2 rfl).2.2.2⟩

/-- C4 counterexample: a looping clip with 4 frames, fps 2 (duration 2),
playing from time 0 at speed 1, advanced by dt = 2 lands exactly on
time = duration = 2 with no wrap and no loop event, so the claimed strict
bound time < duration fails. -/
theorem c4_time_reaches_duration_counterexample :
    (update (num 1) false
        (Clip.mk (some ⟨[(), (), (), ()]⟩) (num 2) true true false (num 0) (num 0))
        (num 2)).clip.time = num 2 ∧
    durationGet (update (num 1) false
        (Clip.mk (some ⟨[(), (), (), ()]⟩) (num 2) true true false (num 0) (num 0))
        (num 2)).clip = num 2 ∧
    jsLt (update (num 1) false
        (Clip.mk (some ⟨[(), (), (), ()]⟩) (num 2) true true false (num 0) (num 0))
        (num 2)).clip.time
      (durationGet (update (num 1) false
        (Clip.mk (some ⟨[(), (), (), ()]⟩) (num 2) true true false (num 0) (num 0))
        (num 2)).clip) = false ∧
    (update (num 1) false
        (Clip.mk (some ⟨[(), (), (), ()]⟩) (num 2) true true false (num 0) (num 0))
        (num 2)).events = [] := by
  refine ⟨?_, ?_, ?_, ?_⟩ <;>
    norm_num [update, durationGet, setFrame, jsAdd, jsMul, jsDiv, jsMod, jsLt, jsLe, jsSEq,
      jsFalsy, jsClamp, jsFloor, ratTrunc]

/-- C5 counterexample: a non-looping clip with 4 frames, fps 2 (duration
2), playing from time 0 at speed 1, advanced by dt = 5/2: the raw time
5/2 exceeds the duration, time is clamped to 2, the end event fires and
playing clears, but the stored frame becomes 4 = frames.length, not the
last frame index 3 claimed. -/
theorem c5_frame_equals_frame_count_counterexample :
    (update (num 1) false
        (Clip.mk (some ⟨[(), (), (), ()]⟩) (num 2) false true false (num 0) (num 0))
        (num (5/2))).clip.frame = num 4 ∧
    (update (num 1) false
        (Clip.mk (some ⟨[(), (), (), ()]⟩) (num 2) false true false (num 0) (num 0))
        (num (5/2))).clip.frame ≠ num 3 ∧
    (update (num 1) false
        (Clip.mk (some ⟨[(), (), (), ()]⟩) (num 2) false true false (num 0) (num 0))
        (num (5/2))).clip.time = num 2 ∧
    (update (num 1) false
        (Clip.mk (some ⟨[(), (), (), ()]⟩) (num 2) false true false (num 0) (num 0))
        (num (5/2))).events = [Ev.endEv] ∧
    (update (num 1) false
        (Clip.mk (some ⟨[(), (), (), ()]⟩) (num 2) false true false (num 0) (num 0))
        (num (5/2))).clip.playing = false := by
  refine ⟨?_, ?_, ?_, ?_, ?_⟩ <;>
    norm_num [update, durationGet, setFrame, jsAdd, jsMul, jsDiv, jsMod, jsLt, jsLe, jsSEq,
      jsFalsy, jsClamp, jsFloor, ratTrunc]

/-- C6: the concrete looping scenario of the spec, computed exactly: a
playing, unpaused clip with a 4-frame sprite, fps 2, loop on, time 0,
component speed 1; advance(3/2) gives time 3/2 and frame 3 with no
events, and the following advance(1) wraps the raw time 5/2 to 1/2,
fires the loop event and gives frame 1. -/
theorem c6_concrete_scenario :
    update (num 1) false
        (Clip.mk (some ⟨[(), (), (), ()]⟩) (num 2) true true false (num 0) (num 0))
        (num (3/2))
      = ⟨Clip.mk (some ⟨[(), (), (), ()]⟩) (num 2) true true false (num (3/2)) (num 3), [], []⟩ ∧
    update (num 1) false
        (Clip.mk (some ⟨[(), (), (), ()]⟩) (num 2) true true false (num (3/2)) (num 3))
        (num 1)
      = ⟨Clip.mk (some ⟨[(), (), (), ()]⟩) (num 2) true true false (num (1/2)) (num 1),
          [Ev.loopEv], []⟩ := by
  constructor <;>
    norm_num [update, durationGet, setFrame, jsAdd, jsMul, jsDiv, jsMod, jsLt, jsLe, jsSEq,
      jsFalsy, jsClamp, jsFloor, ratTrunc]

/-- C8 counterexample: assigning frame = 5 on a clip with no bound sprite
stores the raw value 5, so frame = 0 does not hold after every operation
as claimed (time is still reset to 0). -/
theorem c8_frame_setter_raw_counterexample :
    (setFrame false (Clip.mk none (num 2) false false false (num 0) (num 0)) (num 5)).clip.frame
      = num 5 ∧
    (setFrame false (Clip.mk none (num 2) false false false (num 0) (num 0)) (num 5)).clip.frame
      ≠ num 0 ∧
    (setFrame false (Clip.mk none (num 2) false false false (num 0) (num 0)) (num 5)).clip.time
      = num 0 := by
  refine ⟨?_, ?_, ?_⟩ <;> norm_num [setFrame]

/-- C10: for the active clip with a bound sprite, the frame setter always
invokes the renderer callback showFrame with the raw assigned value,
while the stored frame is the value clamped to the interval from 0 to
frames.length. -/
theorem c10_show_frame_raw_value (s : Sprite) (fv : JsNum) (l pl pa : Bool) (t f v : JsNum) :
    (setFrame true (Clip.mk (some s) fv l pl pa t f) v).shows = [v] ∧
    (setFrame true (Clip.mk (some s) fv l pl pa t f) v).clip.frame
      = jsClamp v (num 0) (num (s.frames.length : ℚ)) := by
  constructor <;> simp [setFrame]

/-- Reduction of addition on exact rationals. -/
theorem jsAdd_num (a b : ℚ) : jsAdd (num a) (num b) = num (a + b) := rfl

/-- Reduction of multiplication on exact rationals. -/
theorem jsMul_num (a b : ℚ) : jsMul (num a) (num b) = num (a * b) := rfl

/-- Reduction of the strict comparison on exact rationals. -/
theorem jsLt_num (a b : ℚ) : jsLt (num a) (num b) = decide (a < b) := rfl

/-- Reduction of Math.floor on exact rationals. -/
theorem jsFloor_num (a : ℚ) : jsFloor (num a) = num (⌊a⌋ : ℚ) := rfl

/-- Reduction of falsiness on exact rationals. -/
theorem jsFalsy_num (a : ℚ) : jsFalsy (num a) = decide (a = 0) := rfl

/-- Reduction of the remainder on exact rationals, divisor nonzero. -/
theorem jsMod_num (a b : ℚ) (hb : b ≠ 0) :
    jsMod (num a) (num b) = num (a - b * (ratTrunc (a / b) : ℚ)) := by
  simp [jsMod, hb]

/-- Clamping a value already inside the interval from 0 to hi is the
identity. -/
theorem jsClamp_of_le (x hi : ℚ) (hx0 : 0 ≤ x) (hxh : x ≤ hi) :
    jsClamp (num x) (num 0) (num hi) = num x := by
  unfold jsClamp jsLe
  by_cases h1 : hi ≤ x
  · simp [h1, le_antisymm hxh h1]
  · by_cases h2 : x ≤ 0
    · have hx : x = 0 := le_antisymm h2 hx0
      subst hx
      simp [h1]
    · simp [h1, h2]

/-- The duration getter on a bound sprite with a nonzero rational fps. -/
theorem durationGet_num (s : Sprite) (q : ℚ) (L pl pa : Bool) (t f : JsNum) (hq : q ≠ 0) :
    durationGet (Clip.mk (some s) (num q) L pl pa t f)
      = num ((s.frames.length : ℚ) / q) := by
  simp [durationGet, jsFalsy, hq, jsDiv_num _ _ hq]

/-- The duration getter on a bound sprite for any rational fps, with the
Number.MIN_VALUE substitution made explicit. -/
theorem durationGet_eff (s : Sprite) (q : ℚ) (L pl pa : Bool) (t f : JsNum) :
    durationGet (Clip.mk (some s) (num q) L pl pa t f)
      = num ((s.frames.length : ℚ) / (if q = 0 then minValue else q)) := by
  by_cases hq : q = 0
  · simp [durationGet, jsFalsy, hq, jsDiv_num _ _ (ne_of_gt minValue_pos)]
  · simp [durationGet, jsFalsy, hq, jsDiv_num _ _ hq]

/-- The frame setter on a bound sprite, positive fps and an in-range
value: the value is stored and the time becomes its frame start. -/
theorem setFrame_inrange (s : Sprite) (q : ℚ) (L pl pa : Bool) (t0 fr0 : JsNum) (ic : Bool)
    (v : ℚ) (hq : 0 < q) (h0 : 0 ≤ v) (hv : v ≤ (s.frames.length : ℚ)) :
    setFrame ic (Clip.mk (some s) (num q) L pl pa t0 fr0) (num v)
      = ⟨Clip.mk (some s) (num q) L pl pa (num (v / q)) (num v), [],
          if ic then [num v] else []⟩ := by
  have hq0 : q ≠ 0 := ne_of_gt hq
  have hfr := jsClamp_of_le v (s.frames.length : ℚ) h0 hv
  have hdur := durationGet_num s q L pl pa t0 fr0 hq0
  have ht := jsClamp_of_le (v / q) ((s.frames.length : ℚ) / q) (div_nonneg h0 hq.le)
    ((div_le_div_iff_of_pos_right hq).mpr hv)
  simp [setFrame, hfr, hdur, ht, jsFalsy, hq0, jsDiv_num _ _ hq0]

/-- The frame setter on a bound sprite for any nonnegative rational fps
and an in-range value, with the Number.MIN_VALUE substitution explicit. -/
theorem setFrame_run (s : Sprite) (q : ℚ) (L pl pa : Bool) (t0 fr0 : JsNum) (ic : Bool)
    (v : ℚ) (hq : 0 ≤ q) (h0 : 0 ≤ v) (hv : v ≤ (s.frames.length : ℚ)) :
    setFrame ic (Clip.mk (some s) (num q) L pl pa t0 fr0) (num v)
      = ⟨Clip.mk (some s) (num q) L pl pa
            (num (v / (if q = 0 then minValue else q))) (num v), [],
          if ic then [num v] else []⟩ := by
  have hfr := jsClamp_of_le v (s.frames.length : ℚ) h0 hv
  by_cases h : q = 0
  · have hqe0 : minValue ≠ 0 := ne_of_gt minValue_pos
    have hdur := durationGet_eff s q L pl pa t0 fr0
    rw [h] at hdur ⊢
    simp only [ite_true, if_pos rfl] at hdur ⊢
    have ht := jsClamp_of_le (v / minValue) ((s.frames.length : ℚ) / minValue)
      (div_nonneg h0 minValue_pos.le) ((div_le_div_iff_of_pos_right minValue_pos).mpr hv)
    simp [setFrame, hfr, hdur, ht, jsFalsy, jsDiv_num _ _ hqe0]
  · have hqp : 0 < q := lt_of_le_of_ne hq (Ne.symm h)
    have hdur := durationGet_eff s q L pl pa t0 fr0
    simp only [h, ite_false, if_neg h] at hdur ⊢
    have ht := jsClamp_of_le (v / q) ((s.frames.length : ℚ) / q)
      (div_nonneg h0 hqp.le) ((div_le_div_iff_of_pos_right hqp).mpr hv)
    simp [setFrame, hfr, hdur, ht, jsFalsy, h, jsDiv_num _ _ h]

/-- A strict-equality comparison that succeeds against a rational forces
the other operand to be that rational. -/
theorem jsSEq_num_true (a : ℚ) (x : JsNum) (h : jsSEq (num a) x = true) : x = num a := by
  cases x with
  | num b =>
    simp [jsSEq] at h
    simp [h]
  | pinf => simp [jsSEq] at h
  | ninf => simp [jsSEq] at h
  | nan => simp [jsSEq] at h

/-- Full reduction of the advancing path of update: a playing, unpaused
clip with a bound sprite, nonzero rational fps, rational time, speed and
dt: the time is advanced, wrapped or clamped past the duration, the frame
is recomputed and stored when it differs, and the loop or end event
fires. -/
theorem update_advance_eq (s : Sprite) (q t d sp : ℚ) (L : Bool) (fr : JsNum) (ic : Bool)
    (hq : q ≠ 0) (hdur0 : (s.frames.length : ℚ) / q ≠ 0) :
    update (num sp) ic (Clip.mk (some s) (num q) L true false (num t) fr) (num d)
      = (let n : ℚ := (s.frames.length : ℚ)
         let dur : ℚ := n / q
         let raw : ℚ := t + d * sp
         let t2 : ℚ :=
           if dur < raw then (if L then raw - dur * (ratTrunc (raw / dur) : ℚ) else dur) else raw
         let w : ℚ := (⌊n * t2 / dur⌋ : ℚ)
         let r : StepOut :=
           if jsSEq (num w) fr
           then ⟨Clip.mk (some s) (num q) L true false (num t2) fr, [], []⟩
           else setFrame ic (Clip.mk (some s) (num q) L true false (num t2) fr) (num w)
         if dur < raw then
           (if L then ⟨r.clip, [Ev.loopEv], r.shows⟩
            else ⟨{ r.clip with playing := false, paused := false }, [Ev.endEv], r.shows⟩)
         else r) := by
  by_cases hw : (s.frames.length : ℚ) / q < t + d * sp
  · have hlt : jsLt (num ((s.frames.length : ℚ) / q)) (num (t + d * sp)) = true := by
      simp [jsLt_num, hw]
    cases L <;>
      simp [update, durationGet, jsFalsy_num, jsAdd_num, jsMul_num, jsFloor_num, hlt, hw, hq,
        jsDiv_num _ _ hq, jsDiv_num _ _ hdur0, jsMod_num _ _ hdur0, setFrame] <;>
      (try (split <;> rfl))
  · have hlt : jsLt (num ((s.frames.length : ℚ) / q)) (num (t + d * sp)) = false := by
      simp [jsLt_num, hw]
    simp [update, durationGet, jsFalsy_num, jsAdd_num, jsMul_num, jsFloor_num, hlt, hw, hq,
      jsDiv_num _ _ hq, jsDiv_num _ _ hdur0, jsMod_num _ _ hdur0, setFrame]

/-- C4 amended: for a looping, playing, unpaused clip with a bound sprite
of at least one frame, positive rational fps (hence duration > 0),
nonnegative time and nonnegative dt and speed, advance keeps
0 ≤ time ≤ duration (equality is reached when the raw time lands exactly
on the duration), the loop event fires exactly once per advance call
whose raw time strictly exceeds the duration (not per wrapped period),
and after such a wrapping call the time is strictly below the duration. -/
theorem c4_loop_advance_amended (s : Sprite) (q t d sp : ℚ) (fr : JsNum) (ic : Bool)
    (hq : 0 < q) (hn : 1 ≤ s.frames.length) (ht0 : 0 ≤ t) (hd : 0 ≤ d) (hsp : 0 ≤ sp) :
    ∃ t' : ℚ,
      (update (num sp) ic (Clip.mk (some s) (num q) true true false (num t) fr)
          (num d)).clip.time = num t' ∧
      0 ≤ t' ∧ t' ≤ (s.frames.length : ℚ) / q ∧
      ((update (num sp) ic (Clip.mk (some s) (num q) true true false (num t) fr)
          (num d)).events
        = if (s.frames.length : ℚ) / q < t + d * sp then [Ev.loopEv] else []) ∧
      ((s.frames.length : ℚ) / q < t + d * sp → t' < (s.frames.length : ℚ) / q) := by
  have hq0 : q ≠ 0 := ne_of_gt hq
  have hn1 : (1 : ℚ) ≤ (s.frames.length : ℚ) := by exact_mod_cast hn
  have hn0 : (0 : ℚ) < (s.frames.length : ℚ) := lt_of_lt_of_le zero_lt_one hn1
  have hdurpos : 0 < (s.frames.length : ℚ) / q := div_pos hn0 hq
  have hdur0 : (s.frames.length : ℚ) / q ≠ 0 := ne_of_gt hdurpos
  have hraw0 : 0 ≤ t + d * sp := add_nonneg ht0 (mul_nonneg hd hsp)
  rw [update_advance_eq s q t d sp true fr ic hq0 hdur0]
  by_cases hw : (s.frames.length : ℚ) / q < t + d * sp
  · have htr : (ratTrunc ((t + d * sp) / ((s.frames.length : ℚ) / q)) : ℚ)
        = ((⌊(t + d * sp) / ((s.frames.length : ℚ) / q)⌋ : ℤ) : ℚ) := by
      unfold ratTrunc
      rw [if_pos (div_nonneg hraw0 hdurpos.le)]
    simp only [hw, if_true, ite_true, ite_false, htr]
    set dur := (s.frames.length : ℚ) / q with hdurdef
    set raw := t + d * sp with hrawdef
    set m := raw - dur * ((⌊raw / dur⌋ : ℤ) : ℚ) with hmdef
    have hm0 : 0 ≤ m := by
      have h1 : dur * ((⌊raw / dur⌋ : ℤ) : ℚ) ≤ dur * (raw / dur) :=
        mul_le_mul_of_nonneg_left (Int.floor_le _) hdurpos.le
      have h2 : dur * (raw / dur) = raw := by
        field_simp
      rw [hmdef]
      linarith [h1, h2.le]
    have hmlt : m < dur := by
      have h2 : raw / dur < ((⌊raw / dur⌋ : ℤ) : ℚ) + 1 := Int.lt_floor_add_one _
      have h3 : raw < (((⌊raw / dur⌋ : ℤ) : ℚ) + 1) * dur := (div_lt_iff₀ hdurpos).mp h2
      have h4 : raw < ((⌊raw / dur⌋ : ℤ) : ℚ) * dur + dur := by
        rw [add_mul, one_mul] at h3
        exact h3
      have hcomm : dur * ((⌊raw / dur⌋ : ℤ) : ℚ) = ((⌊raw / dur⌋ : ℤ) : ℚ) * dur := mul_comm _ _
      rw [hmdef]
      linarith [h4, hcomm]
    set n : ℚ := (s.frames.length : ℚ) with hndef
    set w := (⌊n * m / dur⌋ : ℤ) with hwdef
    have hx0 : 0 ≤ n * m / dur := div_nonneg (mul_nonneg hn0.le hm0) hdurpos.le
    have hw0 : (0 : ℚ) ≤ (w : ℚ) := by
      rw [hwdef]
      exact_mod_cast Int.floor_nonneg.mpr hx0
    have hxlt : n * m / dur < n := by
      rw [div_lt_iff₀ hdurpos]
      exact (mul_lt_mul_left hn0).mpr hmlt
    have hwlt : (w : ℚ) < n := lt_of_le_of_lt (Int.floor_le _) hxlt
    by_cases hseq : jsSEq (num (w : ℚ)) fr = true
    · simp only [hseq, if_true, ite_true]
      exact ⟨m, rfl, hm0, hmlt.le, by simp [hw], fun _ => hmlt⟩
    · simp only [hseq, ite_false, if_false, Bool.not_eq_true]
      rw [setFrame_inrange s q true true false (num m) fr ic (w : ℚ) hq hw0 hwlt.le]
      refine ⟨(w : ℚ) / q, rfl, div_nonneg hw0 hq.le, ?_, by simp [hw], ?_⟩
      · exact ((div_le_div_iff_of_pos_right hq).mpr hwlt.le)
      · intro _
        exact (div_lt_div_iff_of_pos_right hq).mpr hwlt
  · have hle : t + d * sp ≤ (s.frames.length : ℚ) / q := not_lt.mp hw
    simp only [hw, if_false, ite_false]
    set dur := (s.frames.length : ℚ) / q with hdurdef
    set raw := t + d * sp with hrawdef
    set n : ℚ := (s.frames.length : ℚ) with hndef
    set w := (⌊n * raw / dur⌋ : ℤ) with hwdef
    have hx0 : 0 ≤ n * raw / dur := div_nonneg (mul_nonneg hn0.le hraw0) hdurpos.le
    have hw0 : (0 : ℚ) ≤ (w : ℚ) := by
      rw [hwdef]
      exact_mod_cast Int.floor_nonneg.mpr hx0
    have hxle : n * raw / dur ≤ n := by
      rw [div_le_iff₀ hdurpos]
      exact mul_le_mul_of_nonneg_left hle hn0.le
    have hwle : (w : ℚ) ≤ n := le_trans (Int.floor_le _) hxle
    by_cases hseq : jsSEq (num (w : ℚ)) fr = true
    · simp only [hseq, if_true, ite_true]
      exact ⟨raw, rfl, hraw0, hle, by simp [hw], fun h => h.elim⟩
    · simp only [hseq, ite_false, if_false]
      rw [setFrame_inrange s q true true false (num raw) fr ic (w : ℚ) hq hw0 hwle]
      refine ⟨(w : ℚ) / q, rfl, div_nonneg hw0 hq.le, ?_, by simp [hw], fun h => h.elim⟩
      exact (div_le_div_iff_of_pos_right hq).mpr hwle

/-- C4 witness: the amended looping-advance theorem instantiated on a
4-frame sprite, fps 2, time 0, dt 1/2, speed 1. -/
theorem c4_loop_advance_amended_witness :
    ∃ t' : ℚ,
      (update (num 1) false
          (Clip.mk (some ⟨[(), (), (), ()]⟩) (num 2) true true false (num 0) (num 0))
          (num (1/2))).clip.time = num t' ∧
      0 ≤ t' ∧ t' ≤ (((⟨[(), (), (), ()]⟩ : Sprite)).frames.length : ℚ) / 2 := by
  obtain ⟨t', h1, h2, h3, h4, h5⟩ :=
    c4_loop_advance_amended ⟨[(), (), (), ()]⟩ 2 0 (1/2) 1 (num 0) false
      (by norm_num) (by norm_num) (le_refl 0) (by norm_num) (by norm_num)
  exact ⟨t', h1, h2, h3⟩

/-- C5 amended: for a non-looping, playing, unpaused clip with a bound
sprite of at least one frame, positive rational fps, nonnegative time,
dt and speed: the resulting time never exceeds the duration; when the raw
time does not exceed the duration no event fires and playing stays set;
on the call where the raw time strictly exceeds the duration, time is set
to the duration, the stored frame becomes frames.length (the clamp upper
bound, one past the last valid index — not the last frame index), the end
event fires exactly once, playing and paused clear, and every subsequent
advance is a complete no-op. -/
theorem c5_nonloop_advance_amended (s : Sprite) (q t d sp : ℚ) (fr : JsNum) (ic : Bool)
    (hq : 0 < q) (hn : 1 ≤ s.frames.length) (ht0 : 0 ≤ t) (hd : 0 ≤ d) (hsp : 0 ≤ sp) :
    (∃ t' : ℚ,
      (update (num sp) ic (Clip.mk (some s) (num q) false true false (num t) fr)
          (num d)).clip.time = num t' ∧
      0 ≤ t' ∧ t' ≤ (s.frames.length : ℚ) / q) ∧
    (¬((s.frames.length : ℚ) / q < t + d * sp) →
      (update (num sp) ic (Clip.mk (some s) (num q) false true false (num t) fr)
          (num d)).events = [] ∧
      (update (num sp) ic (Clip.mk (some s) (num q) false true false (num t) fr)
          (num d)).clip.playing = true) ∧
    ((s.frames.length : ℚ) / q < t + d * sp →
      (update (num sp) ic (Clip.mk (some s) (num q) false true false (num t) fr)
          (num d)).clip.time = num ((s.frames.length : ℚ) / q) ∧
      (update (num sp) ic (Clip.mk (some s) (num q) false true false (num t) fr)
          (num d)).clip.frame = num (s.frames.length : ℚ) ∧
      (update (num sp) ic (Clip.mk (some s) (num q) false true false (num t) fr)
          (num d)).events = [Ev.endEv] ∧
      (update (num sp) ic (Clip.mk (some s) (num q) false true false (num t) fr)
          (num d)).clip.playing = false ∧
      (update (num sp) ic (Clip.mk (some s) (num q) false true false (num t) fr)
          (num d)).clip.paused = false ∧
      (∀ (sp2 d2 : JsNum) (ic2 : Bool),
        update sp2 ic2
          (update (num sp) ic (Clip.mk (some s) (num q) false true false (num t) fr)
            (num d)).clip d2
          = ⟨(update (num sp) ic (Clip.mk (some s) (num q) false true false (num t) fr)
              (num d)).clip, [], []⟩)) := by
  have hq0 : q ≠ 0 := ne_of_gt hq
  have hn1 : (1 : ℚ) ≤ (s.frames.length : ℚ) := by exact_mod_cast hn
  have hn0 : (0 : ℚ) < (s.frames.length : ℚ) := lt_of_lt_of_le zero_lt_one hn1
  have hdurpos : 0 < (s.frames.length : ℚ) / q := div_pos hn0 hq
  have hdur0 : (s.frames.length : ℚ) / q ≠ 0 := ne_of_gt hdurpos
  have hraw0 : 0 ≤ t + d * sp := add_nonneg ht0 (mul_nonneg hd hsp)
  have hnum0 : (num q : JsNum) ≠ num 0 := by simpa using hq0
  have hU := update_advance_eq s q t d sp false fr ic hq0 hdur0
  by_cases hw : (s.frames.length : ℚ) / q < t + d * sp
  · have hwn : (s.frames.length : ℚ) * ((s.frames.length : ℚ) / q) / ((s.frames.length : ℚ) / q)
        = (s.frames.length : ℚ) := mul_div_cancel_right₀ _ hdur0
    have hfln : ((⌊(s.frames.length : ℚ) * ((s.frames.length : ℚ) / q)
          / ((s.frames.length : ℚ) / q)⌋ : ℤ) : ℚ)
        = (s.frames.length : ℚ) := by
      rw [hwn]
      exact_mod_cast Int.floor_natCast s.frames.length
    simp only [hw, if_true, ite_true, ite_false, if_false, Bool.false_eq_true, hfln] at hU
    by_cases hseq : jsSEq (num (s.frames.length : ℚ)) fr = true
    · have hfr : fr = num (s.frames.length : ℚ) := jsSEq_num_true _ fr hseq
      simp only [hseq, if_true, ite_true] at hU
      rw [hU]
      refine ⟨⟨(s.frames.length : ℚ) / q, rfl, hdurpos.le, le_refl _⟩,
        fun h => absurd hw h, fun _ => ⟨rfl, by rw [hfr], rfl, rfl, rfl, fun sp2 d2 ic2 => ?_⟩⟩
      simp [update, hnum0]
    · simp only [hseq, ite_false, if_false, Bool.not_eq_true] at hU
      rw [setFrame_inrange s q false true false (num ((s.frames.length : ℚ) / q)) fr ic
        (s.frames.length : ℚ) hq hn0.le (le_refl _)] at hU
      rw [hU]
      refine ⟨⟨(s.frames.length : ℚ) / q, rfl, hdurpos.le, le_refl _⟩,
        fun h => absurd hw h, fun _ => ⟨rfl, rfl, rfl, rfl, rfl, fun sp2 d2 ic2 => ?_⟩⟩
      simp [update, hnum0]
  · have hle : t + d * sp ≤ (s.frames.length : ℚ) / q := not_lt.mp hw
    simp only [hw, if_false, ite_false] at hU
    set raw := t + d * sp with hrawdef
    set w := (⌊(s.frames.length : ℚ) * raw / ((s.frames.length : ℚ) / q)⌋ : ℤ) with hwdef
    have hx0 : 0 ≤ (s.frames.length : ℚ) * raw / ((s.frames.length : ℚ) / q) :=
      div_nonneg (mul_nonneg hn0.le hraw0) hdurpos.le
    have hw0 : (0 : ℚ) ≤ (w : ℚ) := by
      rw [hwdef]
      exact_mod_cast Int.floor_nonneg.mpr hx0
    have hxle : (s.frames.length : ℚ) * raw / ((s.frames.length : ℚ) / q)
        ≤ (s.frames.length : ℚ) := by
      rw [div_le_iff₀ hdurpos]
      exact mul_le_mul_of_nonneg_left hle hn0.le
    have hwle : (w : ℚ) ≤ (s.frames.length : ℚ) := le_trans (Int.floor_le _) hxle
    by_cases hseq : jsSEq (num (w : ℚ)) fr = true
    · simp only [hseq, if_true, ite_true] at hU
      rw [hU]
      exact ⟨⟨raw, rfl, hraw0, hle⟩, fun _ => ⟨rfl, rfl⟩, fun h => absurd h hw⟩
    · simp only [hseq, ite_false, if_false, Bool.not_eq_true] at hU
      rw [setFrame_inrange s q false true false (num raw) fr ic (w : ℚ) hq hw0 hwle] at hU
      rw [hU]
      exact ⟨⟨(w : ℚ) / q, rfl, div_nonneg hw0 hq.le,
          (div_le_div_iff_of_pos_right hq).mpr hwle⟩,
        fun _ => ⟨rfl, rfl⟩, fun h => absurd h hw⟩

/-- C5 witness: the amended non-looping theorem instantiated on a 4-frame
sprite, fps 2, time 0, dt 5/2, speed 1, where the raw time 5/2 exceeds the
duration 2: the end event fires and playing clears. -/
theorem c5_nonloop_advance_amended_witness :
    (update (num 1) false
        (Clip.mk (some ⟨[(), (), (), ()]⟩) (num 2) false true false (num 0) (num 0))
        (num (5/2))).events = [Ev.endEv] ∧
    (update (num 1) false
        (Clip.mk (some ⟨[(), (), (), ()]⟩) (num 2) false true false (num 0) (num 0))
        (num (5/2))).clip.playing = false := by
  have h := (c5_nonloop_advance_amended ⟨[(), (), (), ()]⟩ 2 0 (5/2) 1 (num 0) false
      (by norm_num) (by norm_num) (le_refl 0) (by norm_num) (by norm_num)).2.2
    (by norm_num)
  exact ⟨h.2.2.1, h.2.2.2.1⟩

/-- Round trip of the frame and time setters for an effective fps value
qe (the stored fps when nonzero, Number.MIN_VALUE when fps is 0). -/
theorem roundtrip_aux (s : Sprite) (q qe : ℚ) (L pl pa : Bool) (t0 f0 : JsNum) (ic : Bool)
    (f : ℕ) (hq : 0 ≤ q) (hf : f < s.frames.length) (hqe : 0 < qe)
    (heff : (if q = 0 then minValue else q) = qe) :
    (setTime ic (setFrame ic (Clip.mk (some s) (num q) L pl pa t0 f0) (num (f : ℚ))).clip
        ((setFrame ic (Clip.mk (some s) (num q) L pl pa t0 f0)
          (num (f : ℚ))).clip.time)).clip.frame
      = num (f : ℚ) := by
  have hn0 : (0 : ℚ) < (s.frames.length : ℚ) := by
    exact_mod_cast lt_of_le_of_lt (Nat.zero_le f) hf
  have hn0' : (s.frames.length : ℚ) ≠ 0 := ne_of_gt hn0
  have hf0 : (0 : ℚ) ≤ (f : ℚ) := Nat.cast_nonneg f
  have hfn : (f : ℚ) ≤ (s.frames.length : ℚ) := by
    exact_mod_cast Nat.le_of_lt hf
  have hqe0 : qe ≠ 0 := ne_of_gt hqe
  have hdur0 : (s.frames.length : ℚ) / qe ≠ 0 := div_ne_zero hn0' hqe0
  rw [setFrame_run s q L pl pa t0 f0 ic (f : ℚ) hq hf0 hfn, heff]
  have hlt1 : jsLt (num ((f : ℚ) / qe)) (num 0) = false := by
    simp [jsLt_num, not_lt.mpr (div_nonneg hf0 hqe.le)]
  have hlt2 : jsLt (num ((s.frames.length : ℚ) / qe)) (num ((f : ℚ) / qe)) = false := by
    simp [jsLt_num, not_lt.mpr ((div_le_div_iff_of_pos_right hqe).mpr hfn)]
  have hff : (s.frames.length : ℚ) * ((f : ℚ) / qe) / ((s.frames.length : ℚ) / qe)
      = (f : ℚ) := by
    field_simp
  have hflf : ((⌊(f : ℚ)⌋ : ℤ) : ℚ) = (f : ℚ) := by
    exact_mod_cast Int.floor_natCast f
  simp only [setTime, durationGet_eff, heff, hlt1, hlt2, if_false, ite_false,
    Bool.false_eq_true, jsMul_num, jsDiv_num _ _ hdur0, jsFloor_num, hff, hflf]
  rw [setFrame_run s q L pl pa (num ((f : ℚ) / qe)) (num (f : ℚ)) ic (f : ℚ) hq hf0 hfn]

/-- C7: for every clip with a bound sprite of at least one frame, strictly
positive rational fps and every in-range frame index f: setting frame to
f, reading the resulting time and assigning it back to the time setter
yields exactly frame = f again (the round trip is exact in exact rational
arithmetic, so it holds within any floor-rounding tolerance).  The
fps = 0 case is deliberately excluded: there the frame setter computes
f / Number.MIN_VALUE, which in IEEE doubles overflows to Infinity for any
f of at least 1, after which the time setter computes
floor(frameCount times Infinity over Infinity) = NaN and stores
frame = NaN; double overflow is a floating-point behaviour that this
exact-rational embedding does not reproduce, so the theorem claims
nothing about that case. -/
theorem c7_frame_time_roundtrip (s : Sprite) (q : ℚ) (L pl pa : Bool) (t0 f0 : JsNum)
    (ic : Bool) (f : ℕ) (hq : 0 < q) (hf : f < s.frames.length) :
    (setTime ic (setFrame ic (Clip.mk (some s) (num q) L pl pa t0 f0) (num (f : ℚ))).clip
        ((setFrame ic (Clip.mk (some s) (num q) L pl pa t0 f0)
          (num (f : ℚ))).clip.time)).clip.frame
      = num (f : ℚ) :=
  roundtrip_aux s q q L pl pa t0 f0 ic f hq.le hf hq (by simp [ne_of_gt hq])

/-- C7 witness: the round trip instantiated on a 4-frame sprite with
fps 2 and frame index 3. -/
theorem c7_frame_time_roundtrip_witness :
    (setTime false
        (setFrame false
          (Clip.mk (some ⟨[(), (), (), ()]⟩) (num 2) true false false (num 0) (num 0))
          (num ((3 : ℕ) : ℚ))).clip
        ((setFrame false
          (Clip.mk (some ⟨[(), (), (), ()]⟩) (num 2) true false false (num 0) (num 0))
          (num ((3 : ℕ) : ℚ))).clip.time)).clip.frame
      = num ((3 : ℕ) : ℚ) :=
  c7_frame_time_roundtrip ⟨[(), (), (), ()]⟩ 2 true false false (num 0) (num 0) false 3
    (by norm_num) (by norm_num)

/-- C8 amended: for a clip with no bound sprite, time 0 and frame 0: the
play, pause, resume and stop methods and every time-setter assignment
keep time = 0 and frame = 0 (the time setter forces both back to 0 for
any assigned value), and advance with fps = 0 is an exact no-op; the
playing and paused flags still respond (play sets playing, stop clears
it, pause sets paused on a playing clip, resume clears it).  The frame
setter, however, stores the raw assigned value (with time reset to 0), so
frame = 0 is not preserved by direct frame assignments. -/
theorem c8_no_sprite_amended (fv : JsNum) (l pl pa ic : Bool) (v sp d : JsNum) :
    (play ic (Clip.mk none fv l pl pa (num 0) (num 0))).clip.time = num 0 ∧
    (play ic (Clip.mk none fv l pl pa (num 0) (num 0))).clip.frame = num 0 ∧
    (play ic (Clip.mk none fv l pl pa (num 0) (num 0))).clip.playing = true ∧
    (play ic (Clip.mk none fv l pl pa (num 0) (num 0))).clip.paused = (pa && pl) ∧
    (pause (Clip.mk none fv l pl pa (num 0) (num 0))).clip.time = num 0 ∧
    (pause (Clip.mk none fv l pl pa (num 0) (num 0))).clip.frame = num 0 ∧
    (pause (Clip.mk none fv l pl pa (num 0) (num 0))).clip.playing = pl ∧
    (pause (Clip.mk none fv l pl pa (num 0) (num 0))).clip.paused = (pa || pl) ∧
    (resume (Clip.mk none fv l pl pa (num 0) (num 0))).clip.time = num 0 ∧
    (resume (Clip.mk none fv l pl pa (num 0) (num 0))).clip.frame = num 0 ∧
    (resume (Clip.mk none fv l pl pa (num 0) (num 0))).clip.playing = pl ∧
    (resume (Clip.mk none fv l pl pa (num 0) (num 0))).clip.paused = false ∧
    (stop ic (Clip.mk none fv l pl pa (num 0) (num 0))).clip.time = num 0 ∧
    (stop ic (Clip.mk none fv l pl pa (num 0) (num 0))).clip.frame = num 0 ∧
    (stop ic (Clip.mk none fv l pl pa (num 0) (num 0))).clip.playing = false ∧
    (stop ic (Clip.mk none fv l pl pa (num 0) (num 0))).clip.paused = (pa && !pl) ∧
    (setTime ic (Clip.mk none fv l pl pa (num 0) (num 0)) v).clip.time = num 0 ∧
    (setTime ic (Clip.mk none fv l pl pa (num 0) (num 0)) v).clip.frame = num 0 ∧
    (setFrame ic (Clip.mk none fv l pl pa (num 0) (num 0)) v).clip.frame = v ∧
    (setFrame ic (Clip.mk none fv l pl pa (num 0) (num 0)) v).clip.time = num 0 ∧
    update sp ic (Clip.mk none (num 0) l pl pa (num 0) (num 0)) d
      = ⟨Clip.mk none (num 0) l pl pa (num 0) (num 0), [], []⟩ := by
  refine ⟨?_, ?_, ?_, ?_, ?_, ?_, ?_, ?_, ?_, ?_, ?_, ?_, ?_, ?_, ?_, ?_, ?_, ?_, ?_, ?_, ?_⟩
  · cases pl <;> simp [play, setFrame]
  · cases pl <;> simp [play, setFrame]
  · cases pl <;> simp [play, setFrame]
  · cases pl <;> cases pa <;> simp [play, setFrame]
  · cases pl <;> cases pa <;> simp [pause]
  · cases pl <;> cases pa <;> simp [pause]
  · cases pl <;> cases pa <;> simp [pause]
  · cases pl <;> cases pa <;> simp [pause]
  · cases pa <;> simp [resume]
  · cases pa <;> simp [resume]
  · cases pa <;> simp [resume]
  · cases pa <;> simp [resume]
  · cases pl <;> simp [stop, setFrame]
  · cases pl <;> simp [stop, setFrame]
  · cases pl <;> simp [stop, setFrame]
  · cases pl <;> cases pa <;> simp [stop, setFrame]
  · simp only [setTime]
    split_ifs <;> simp [setFrame]
  · simp only [setTime]
    split_ifs <;> simp [setFrame]
  · simp [setFrame]
  · simp [setFrame]
  · simp [update]

/-- The load handler leaves the listener sets, the stored asset id and
the registry untouched. -/
theorem onSpriteAssetLoad_pres (w : BindState) (a : AssetRec) :
    (onSpriteAssetLoad w a).loadHandlers = w.loadHandlers ∧
    (onSpriteAssetLoad w a).addHandlers = w.addHandlers ∧
    (onSpriteAssetLoad w a).spriteAsset = w.spriteAsset ∧
    (onSpriteAssetLoad w a).assets = w.assets := by
  unfold onSpriteAssetLoad setSpriteRes
  rcases har : a.resource with _ | r
  · simp
  · by_cases hat : r.hasAtlas <;> simp [hat]

/-- Binding attaches the load handlers for the bound id and changes
nothing else among the listener sets, the stored id and the registry. -/
theorem bindSpriteAsset_fields (w : BindState) (i : ℕ) (a : AssetRec) :
    (bindSpriteAsset w i a).loadHandlers = i :: w.loadHandlers ∧
    (bindSpriteAsset w i a).addHandlers = w.addHandlers ∧
    (bindSpriteAsset w i a).spriteAsset = w.spriteAsset ∧
    (bindSpriteAsset w i a).assets = w.assets := by
  unfold bindSpriteAsset
  rcases har : a.resource with _ | r
  · simp
  · have h := onSpriteAssetLoad_pres
      { w with loadHandlers := i :: w.loadHandlers } a
    simp [h.1, h.2.1, h.2.2.1, h.2.2.2]

/-- Effect of the spriteAsset setter on the listener sets when the clip
had no asset bound. -/
theorem setSpriteAsset_from_none (w : BindState) (i : ℕ) (h0 : w.spriteAsset = none) :
    (setSpriteAsset w (some i)).spriteAsset = some i ∧
    (setSpriteAsset w (some i)).assets = w.assets ∧
    ((setSpriteAsset w (some i)).loadHandlers
      = if (w.assets i).isSome = true then i :: w.loadHandlers else w.loadHandlers) ∧
    ((setSpriteAsset w (some i)).addHandlers
      = if (w.assets i).isSome = true then w.addHandlers else i :: w.addHandlers) := by
  unfold setSpriteAsset
  rw [h0]
  rcases hai : w.assets i with _ | a0
  · simp [hai, setSpriteRes]
  · have h := bindSpriteAsset_fields { w with spriteAsset := some i } i a0
    simp [hai, h.1, h.2.1, h.2.2.1, h.2.2.2]

/-- Effect of the spriteAsset setter when rebinding from one id to a
different one: the load handlers of the old id are erased exactly when
the old asset is registered, and the registry add handler of the old id
is never removed here (only the one-shot handler removes itself). -/
theorem setSpriteAsset_change (w : BindState) (oldId newId : ℕ)
    (h0 : w.spriteAsset = some oldId) (hne : oldId ≠ newId) :
    (setSpriteAsset w (some newId)).spriteAsset = some newId ∧
    (setSpriteAsset w (some newId)).assets = w.assets ∧
    ((setSpriteAsset w (some newId)).loadHandlers
      = if (w.assets newId).isSome = true then
          (if (w.assets oldId).isSome = true then
            newId :: (w.loadHandlers.erase oldId) else newId :: w.loadHandlers)
        else
          (if (w.assets oldId).isSome = true then w.loadHandlers.erase oldId
           else w.loadHandlers)) ∧
    ((setSpriteAsset w (some newId)).addHandlers
      = if (w.assets newId).isSome = true then w.addHandlers
        else newId :: w.addHandlers) := by
  unfold setSpriteAsset
  rw [h0]
  have hnz : ¬(some oldId = some newId) := by simpa using hne
  rcases hao : w.assets oldId with _ | aold
  · rcases han : w.assets newId with _ | anew
    · simp [hnz, hao, han, setSpriteRes]
    · have h := bindSpriteAsset_fields { w with spriteAsset := some newId } newId anew
      simp [hnz, hao, han, h.1, h.2.1, h.2.2.1, h.2.2.2]
  · rcases han : w.assets newId with _ | anew
    · simp [hnz, hao, han, setSpriteRes]
    · have h := bindSpriteAsset_fields
        { w with loadHandlers := w.loadHandlers.erase oldId, spriteAsset := some newId }
        newId anew
      simp [hnz, hao, han, h.1, h.2.1, h.2.2.1, h.2.2.2]

/-- The one-shot add handler on a stale id only detaches itself. -/
theorem onSpriteAssetAdded_stale (w : BindState) (i : ℕ) (a : AssetRec)
    (h : w.spriteAsset ≠ some i) :
    onSpriteAssetAdded w i a = { w with addHandlers := w.addHandlers.erase i } := by
  unfold onSpriteAssetAdded
  simp [h]

/-- Registration of an id that is no longer the stored spriteAsset id
never changes the stored sprite or the load handlers. -/
theorem deliverAdd_stale (w : BindState) (i : ℕ) (a : AssetRec) (h : w.spriteAsset ≠ some i) :
    (deliverAdd w i a).sprite = w.sprite ∧
    (deliverAdd w i a).loadHandlers = w.loadHandlers ∧
    (deliverAdd w i a).spriteAsset = w.spriteAsset ∧
    (deliverAdd w i a).assets i = some a := by
  unfold deliverAdd
  by_cases hm : i ∈ w.addHandlers <;>
    simp [hm, onSpriteAssetAdded_stale _ _ a (show ({ w with
      assets := fun j => if j = i then some a else w.assets j } : BindState).spriteAsset
        ≠ some i from h)]

/-- A load completion for an id on which the clip holds no load handler
never changes the stored sprite. -/
theorem deliverLoad_unheard (w : BindState) (i : ℕ) (r : SpriteRes) (h : i ∉ w.loadHandlers) :
    (deliverLoad w i r).sprite = w.sprite := by
  unfold deliverLoad
  rcases hai : w.assets i with _ | a
  · simp
  · simp [h]

/-- C9: rebinding from asset id A to a different id B before the load of
A completes fully rejects the stale chain: after the two setter calls the
clip holds no load handler on A (the setter detached them when A was
registered, and never attached them when it was not), so a later load
completion for A leaves the stored sprite unchanged, and a later
registration of A runs only the one-shot add handler, whose id check
against the now-current id B refuses to bind, again leaving the sprite
and the load handlers unchanged — hence even the full stale sequence
(A added late, then loaded) never assigns the resource of A. -/
theorem c9_stale_rebind_rejected (w0 : BindState) (A B : ℕ) (r : SpriteRes) (a : AssetRec)
    (h0 : w0.spriteAsset = none) (hA0 : A ∉ w0.loadHandlers) (hAB : A ≠ B) :
    (setSpriteAsset (setSpriteAsset w0 (some A)) (some B)).spriteAsset = some B ∧
    A ∉ (setSpriteAsset (setSpriteAsset w0 (some A)) (some B)).loadHandlers ∧
    (deliverLoad (setSpriteAsset (setSpriteAsset w0 (some A)) (some B)) A r).sprite
      = (setSpriteAsset (setSpriteAsset w0 (some A)) (some B)).sprite ∧
    (deliverAdd (setSpriteAsset (setSpriteAsset w0 (some A)) (some B)) A a).sprite
      = (setSpriteAsset (setSpriteAsset w0 (some A)) (some B)).sprite ∧
    (deliverLoad (deliverAdd (setSpriteAsset (setSpriteAsset w0 (some A)) (some B)) A a)
        A r).sprite
      = (setSpriteAsset (setSpriteAsset w0 (some A)) (some B)).sprite := by
  obtain ⟨hsa1, has1, hlh1, hah1⟩ := setSpriteAsset_from_none w0 A h0
  obtain ⟨hsa2, has2, hlh2, hah2⟩ :=
    setSpriteAsset_change (setSpriteAsset w0 (some A)) A B hsa1 hAB
  have hnotin : A ∉ (setSpriteAsset (setSpriteAsset w0 (some A)) (some B)).loadHandlers := by
    rw [hlh2, has1, hlh1]
    rcases hA : w0.assets A with _ | a0
    · rcases hB : w0.assets B with _ | b0 <;> simp [hAB, hA0]
    · rcases hB : w0.assets B with _ | b0 <;>
        simp [hAB, hA0, List.erase_cons_head]
  have hBA : (setSpriteAsset (setSpriteAsset w0 (some A)) (some B)).spriteAsset ≠ some A := by
    rw [hsa2]
    simpa using Ne.symm hAB
  have hstale := deliverAdd_stale (setSpriteAsset (setSpriteAsset w0 (some A)) (some B)) A a hBA
  refine ⟨hsa2, hnotin, deliverLoad_unheard _ A r hnotin, hstale.1, ?_⟩
  rw [deliverLoad_unheard _ A r (by rw [hstale.2.1]; exact hnotin), hstale.1]

/-- C9 witness: the stale-rebind theorem instantiated on an empty
registry, rebinding from id 1 to id 2. -/
theorem c9_stale_rebind_rejected_witness :
    (setSpriteAsset (setSpriteAsset
        (BindState.mk (fun _ => none) none none [] [] none []) (some 1)) (some 2)).spriteAsset
      = some 2 ∧
    1 ∉ (setSpriteAsset (setSpriteAsset
        (BindState.mk (fun _ => none) none none [] [] none []) (some 1)) (some 2)).loadHandlers ∧
    (deliverLoad (setSpriteAsset (setSpriteAsset
        (BindState.mk (fun _ => none) none none [] [] none []) (some 1)) (some 2))
        1 (SpriteRes.mk 0 true)).sprite
      = (setSpriteAsset (setSpriteAsset
        (BindState.mk (fun _ => none) none none [] [] none []) (some 1)) (some 2)).sprite := by
  have h := c9_stale_rebind_rejected (BindState.mk (fun _ => none) none none [] [] none [])
    1 2 (SpriteRes.mk 0 true) (AssetRec.mk none 0) rfl (by simp) (by norm_num)
  exact ⟨h.1, h.2.1, h.2.2.1⟩
